import Mathlib

/-!
Shallow embedding of the event-driven notification dispatcher
(repository `ricirt/event-driven-arch`).

Conventions of the embedding:
* Go string-typed enums (`domain.Channel`, `domain.Priority`, `domain.Status`)
  are plain `String`s, with the same constant values as the Go source.
* Go `time.Time` values are `Nat` ticks; `time.Duration` is a `Nat` delay.
* Go maps (`map[string]*domain.Notification`) are association lists
  `List (String × Notification)`; assignment `m[k] = v` replaces an existing
  binding in place or appends a fresh one, matching map overwrite semantics.
* In-place mutation plus an `error` return value becomes a pure function
  returning `Option DomainError × State`.
* Nondeterminism coming from goroutine scheduling (the blocking `select` in
  `PriorityQueue.Dequeue`) is a step relation rather than a function.
-/

set_option maxHeartbeats 1000000
set_option maxRecDepth 16384

/-- Channel constant `domain.ChannelSMS`. -/
def ChannelSMS : String := "sms"

/-- Channel constant `domain.ChannelEmail`. -/
def ChannelEmail : String := "email"

/-- Channel constant `domain.ChannelPush`. -/
def ChannelPush : String := "push"

/-- `domain.Channel.IsValid` from the source. -/
def Channel.IsValid (c : String) : Bool :=
  c = ChannelSMS || c = ChannelEmail || c = ChannelPush

/-- Priority constant `domain.PriorityHigh`. -/
def PriorityHigh : String := "high"

/-- Priority constant `domain.PriorityNormal`. -/
def PriorityNormal : String := "normal"

/-- Priority constant `domain.PriorityLow`. -/
def PriorityLow : String := "low"

/-- `domain.Priority.IsValid` from the source. -/
def Priority.IsValid (p : String) : Bool :=
  p = PriorityHigh || p = PriorityNormal || p = PriorityLow

/-- Status constants from `domain` (Go `Status` string type). -/
def StatusPending : String := "pending"

def StatusQueued : String := "queued"

def StatusProcessing : String := "processing"

def StatusSent : String := "sent"

def StatusFailed : String := "failed"

def StatusCancelled : String := "cancelled"

def StatusScheduled : String := "scheduled"

/-- `domain.Notification` — field for field as in the Go struct, with times as
`Nat` ticks and pointers as `Option`. -/
structure Notification where
  ID : String
  BatchID : Option String
  Channel : String
  Recipient : String
  Content : String
  Priority : String
  Status : String
  IdempotencyKey : Option String
  RetryCount : Nat
  MaxRetries : Nat
  NextRetryAt : Option Nat
  ScheduledAt : Option Nat
  SentAt : Option Nat
  ProviderMsgID : Option String
  ErrorMessage : Option String
  CreatedAt : Nat
  UpdatedAt : Nat
  deriving DecidableEq, Repr

/-- `domain.Batch` from the source. -/
structure Batch where
  ID : String
  Total : Nat
  Pending : Nat
  Sent : Nat
  Failed : Nat
  Cancelled : Nat
  CreatedAt : Nat
  UpdatedAt : Nat
  deriving DecidableEq, Repr

/-- `domain.CreateNotificationRequest` from the source. -/
structure CreateNotificationRequest where
  Channel : String
  Recipient : String
  Content : String
  Priority : String
  ScheduledAt : Option Nat
  deriving DecidableEq, Repr

/-- The sentinel errors of `domain/errors.go`, as an enumeration. -/
inductive DomainError where
  | notFound
  | conflict
  | invalidChannel
  | invalidPriority
  | invalidRecipient
  | invalidContent
  | batchTooLarge
  | batchEmpty
  | alreadyCancelled
  | notCancellable
  | queueFull
  deriving DecidableEq, Repr

/-- `domain.CreateNotificationRequest.Validate`: first failing rule wins,
exactly in source order.  Go `len(r.Content)` counts bytes, hence
`utf8ByteSize`. -/
def CreateNotificationRequest.Validate (r : CreateNotificationRequest) :
    Option DomainError :=
  if ¬ Channel.IsValid r.Channel then some DomainError.invalidChannel
  else if ¬ Priority.IsValid r.Priority then some DomainError.invalidPriority
  else if r.Recipient = "" then some DomainError.invalidRecipient
  else if r.Content = "" ∨ r.Content.utf8ByteSize > 4096 then
    some DomainError.invalidContent
  else none

/-- `handler.mapError` — translation of domain sentinel errors to HTTP status
codes (`respond.go`).  Non-sentinel errors fall to 500 in Go; the enumeration
here covers exactly the sentinels. -/
def mapError (e : DomainError) : Nat :=
  match e with
  | DomainError.notFound => 404
  | DomainError.conflict => 409
  | DomainError.alreadyCancelled => 409
  | DomainError.notCancellable => 409
  | DomainError.invalidChannel => 422
  | DomainError.invalidPriority => 422
  | DomainError.invalidContent => 422
  | DomainError.invalidRecipient => 422
  | DomainError.batchTooLarge => 422
  | DomainError.batchEmpty => 422
  | DomainError.queueFull => 503

/-! ### Go map on string keys, as an association list -/

/-- Lookup `m[k]` (first binding wins; bindings are kept key-unique by
`mapInsert`). -/
def mapGet (m : List (String × Notification)) (k : String) :
    Option Notification :=
  (m.find? (fun p => p.1 = k)).map (fun p => p.2)

/-- Assignment `m[k] = v`: replace every binding of `k` in place, or append
when `k` is absent. -/
def mapInsert (m : List (String × Notification)) (k : String)
    (v : Notification) : List (String × Notification) :=
  if m.any (fun p => p.1 = k) then
    m.map (fun p => if p.1 = k then (p.1, v) else p)
  else m ++ [(k, v)]

/-- The Go pattern `if n, ok := m[id]; ok { mutate n }` — update in place when
present, identity when absent. -/
def mapUpdate (m : List (String × Notification)) (k : String)
    (f : Notification → Notification) : List (String × Notification) :=
  m.map (fun p => if p.1 = k then (p.1, f p.2) else p)

/-- Batch-map lookup. -/
def mapGetBatch (m : List (String × Batch)) (k : String) : Option Batch :=
  (m.find? (fun p => p.1 = k)).map (fun p => p.2)

/-- Batch-map assignment. -/
def mapInsertBatch (m : List (String × Batch)) (k : String) (v : Batch) :
    List (String × Batch) :=
  if m.any (fun p => p.1 = k) then
    m.map (fun p => if p.1 = k then (p.1, v) else p)
  else m ++ [(k, v)]

/-! ### Priority queue (`internal/queue`) -/

/-- `queue.Item` from `item.go`. -/
structure Item where
  NotificationID : String
  Channel : String
  Priority : String
  deriving DecidableEq, Repr

/-- The three buffered channels of `queue.PriorityQueue`, as FIFO lists
(head = next to be received). -/
structure PriorityQueue where
  high : List Item
  normal : List Item
  low : List Item
  deriving DecidableEq, Repr

/-- Buffer capacity of the high channel (`queue.New`). -/
def highCapacity : Nat := 1000

/-- Buffer capacity of the normal channel (`queue.New`). -/
def normalCapacity : Nat := 5000

/-- Buffer capacity of the low channel (`queue.New`). -/
def lowCapacity : Nat := 2000

/-- The two error outcomes of `PriorityQueue.Enqueue`: `domain.ErrQueueFull`,
or the `fmt.Errorf` for an unknown priority string. -/
inductive EnqueueError where
  | queueFull
  | unknownPriority (p : String)
  deriving DecidableEq, Repr

/-- `PriorityQueue.Enqueue`: non-blocking send on the tier selected by
`item.Priority`.  A `select … default` on a buffered channel succeeds exactly
when the buffer is below capacity; on failure the queue is untouched. -/
def PriorityQueue.Enqueue (q : PriorityQueue) (item : Item) :
    Option EnqueueError × PriorityQueue :=
  if item.Priority = PriorityHigh then
    if q.high.length < highCapacity then
      (none, { q with high := q.high ++ [item] })
    else (some EnqueueError.queueFull, q)
  else if item.Priority = PriorityNormal then
    if q.normal.length < normalCapacity then
      (none, { q with normal := q.normal ++ [item] })
    else (some EnqueueError.queueFull, q)
  else if item.Priority = PriorityLow then
    if q.low.length < lowCapacity then
      (none, { q with low := q.low ++ [item] })
    else (some EnqueueError.queueFull, q)
  else (some (EnqueueError.unknownPriority item.Priority), q)

/-- One invocation of `PriorityQueue.Dequeue` as a step relation
`DequeueStep q result q'` (`result = none` models the `ctx.Done` return).

Step 1 of the double-select is the non-blocking receive on `high`: whenever
`high` is non-empty its head is taken, unconditionally.  Only with `high`
empty does the call reach the blocking select, where the Go runtime picks any
ready case — received here as one constructor per case.  The `high` case of
the blocking select coincides with the step-1 constructor in this sequential
semantics, and `ctx.Done` can fire regardless of `normal`/`low` occupancy. -/
inductive DequeueStep : PriorityQueue → Option Item → PriorityQueue → Prop
  | high (q : PriorityQueue) (item : Item) (rest : List Item) :
      q.high = item :: rest →
      DequeueStep q (some item) { q with high := rest }
  | normal (q : PriorityQueue) (item : Item) (rest : List Item) :
      q.high = [] → q.normal = item :: rest →
      DequeueStep q (some item) { q with normal := rest }
  | low (q : PriorityQueue) (item : Item) (rest : List Item) :
      q.high = [] → q.low = item :: rest →
      DequeueStep q (some item) { q with low := rest }
  | ctxDone (q : PriorityQueue) :
      q.high = [] →
      DequeueStep q none q

/-! ### Mock repository (`mock_notification_repo.go`) -/

/-- The in-memory state of `MockNotificationRepository`: the two maps.  The
optional error overrides (`CreateErr`, …) are test hooks left `nil` in every
scenario modelled here. -/
structure MockRepo where
  notifications : List (String × Notification)
  batches : List (String × Batch)
  deriving DecidableEq, Repr

/-- `NewMockNotificationRepository`. -/
def NewMockNotificationRepository : MockRepo :=
  { notifications := [], batches := [] }

namespace MockNotificationRepository

/-- `MockNotificationRepository.Create`: reject a duplicate non-nil
idempotency key with `ErrConflict`, otherwise store a clone under `n.ID`. -/
def Create (repo : MockRepo) (n : Notification) :
    Option DomainError × MockRepo :=
  match n.IdempotencyKey with
  | some k =>
    if repo.notifications.any (fun p => p.2.IdempotencyKey = some k) then
      (some DomainError.conflict, repo)
    else
      (none, { repo with notifications := mapInsert repo.notifications n.ID n })
  | none =>
    (none, { repo with notifications := mapInsert repo.notifications n.ID n })

/-- `MockNotificationRepository.GetByID`: clone or `ErrNotFound`. -/
def GetByID (repo : MockRepo) (id : String) : Except DomainError Notification :=
  match mapGet repo.notifications id with
  | some n => Except.ok n
  | none => Except.error DomainError.notFound

/-- `MockNotificationRepository.GetByIdempotencyKey`: first notification whose
non-nil key equals `key`, else `ErrNotFound`. -/
def GetByIdempotencyKey (repo : MockRepo) (key : String) :
    Except DomainError Notification :=
  match repo.notifications.find? (fun p => p.2.IdempotencyKey = some key) with
  | some p => Except.ok p.2
  | none => Except.error DomainError.notFound

/-- `MockNotificationRepository.UpdateStatus`: mutate when present, always
return `nil`. -/
def UpdateStatus (repo : MockRepo) (id : String) (status : String) :
    Option DomainError × MockRepo :=
  (none, { repo with
    notifications :=
      mapUpdate repo.notifications id (fun n => { n with Status := status }) })

/-- `MockNotificationRepository.MarkSent`. -/
def MarkSent (repo : MockRepo) (id : String) (providerMsgID : String)
    (sentAt : Nat) : Option DomainError × MockRepo :=
  (none, { repo with
    notifications :=
      mapUpdate repo.notifications id (fun n =>
        { n with
          Status := StatusSent
          ProviderMsgID := some providerMsgID
          SentAt := some sentAt }) })

/-- `MockNotificationRepository.MarkFailed`.  Note: the mock sets only
`Status` and `ErrorMessage`; unlike the PostgreSQL implementation it does not
touch `NextRetryAt`. -/
def MarkFailed (repo : MockRepo) (id : String) (errMsg : String) :
    Option DomainError × MockRepo :=
  (none, { repo with
    notifications :=
      mapUpdate repo.notifications id (fun n =>
        { n with
          Status := StatusFailed
          ErrorMessage := some errMsg }) })

/-- `MockNotificationRepository.ScheduleRetry`. -/
def ScheduleRetry (repo : MockRepo) (id : String) (retryCount : Nat)
    (nextRetry : Nat) (errMsg : String) : Option DomainError × MockRepo :=
  (none, { repo with
    notifications :=
      mapUpdate repo.notifications id (fun n =>
        { n with
          RetryCount := retryCount
          NextRetryAt := some nextRetry
          ErrorMessage := some errMsg
          Status := StatusFailed }) })

/-- `MockNotificationRepository.Cancel`. -/
def Cancel (repo : MockRepo) (id : String) : Option DomainError × MockRepo :=
  (none, { repo with
    notifications :=
      mapUpdate repo.notifications id (fun n =>
        { n with Status := StatusCancelled }) })

/-- The batch row assembled inside `MockNotificationRepository.CreateBatch`
(`total = pending = len(notifications)`, zero counters). -/
def batchRow (batchID : String) (total : Nat) (now : Nat) : Batch :=
  { ID := batchID
    Total := total
    Pending := total
    Sent := 0
    Failed := 0
    Cancelled := 0
    CreatedAt := now
    UpdatedAt := now }

/-- `MockNotificationRepository.CreateBatch`: build the batch row, store it,
then store a clone of every child under its own id.  Sequential, hence
trivially all-or-nothing. -/
def CreateBatch (repo : MockRepo) (batchID : String)
    (notifications : List Notification) (now : Nat) : Batch × MockRepo :=
  let batch : Batch := batchRow batchID notifications.length now
  (batch,
    { repo with
      batches := mapInsertBatch repo.batches batchID batch
      notifications :=
        notifications.foldl (fun acc n => mapInsert acc n.ID n)
          repo.notifications })

end MockNotificationRepository

namespace pgNotificationRepository

/-- Row effect of `pgNotificationRepository.MarkFailed`:
`UPDATE notifications SET status = 'failed', error_message = errMsg,
next_retry_at = NULL WHERE id = id`. -/
def MarkFailed (m : List (String × Notification)) (id : String)
    (errMsg : String) : List (String × Notification) :=
  mapUpdate m id (fun n =>
    { n with
      Status := StatusFailed
      ErrorMessage := some errMsg
      NextRetryAt := none })

end pgNotificationRepository

/-! ### Worker (`internal/worker/worker.go`) -/

/-- The repository call issued by `Worker.handleFailure`. -/
inductive RepoCall where
  | markFailed (id : String) (errMsg : String)
  | scheduleRetry (id : String) (retryCount : Nat) (nextRetryAt : Nat)
      (errMsg : String)
  deriving DecidableEq, Repr

namespace Worker

/-- `Worker.handleFailure`, returning the repository call it makes.  Indexing
`w.backoff[idx]` is `getD … 0`; the Go code would panic on an empty backoff
slice, so every statement below assumes `backoff ≠ []`. -/
def handleFailure (backoff : List Nat) (now : Nat) (n : Notification)
    (sendErr : String) : RepoCall :=
  if n.RetryCount ≥ n.MaxRetries then
    RepoCall.markFailed n.ID sendErr
  else
    let idx :=
      if n.RetryCount ≥ backoff.length then backoff.length - 1
      else n.RetryCount
    RepoCall.scheduleRetry n.ID (n.RetryCount + 1) (now + backoff.getD idx 0)
      sendErr

/-- Apply the repository call chosen by `handleFailure` to the mock store. -/
def applyRepoCall (repo : MockRepo) (c : RepoCall) : MockRepo :=
  match c with
  | RepoCall.markFailed id msg =>
    (MockNotificationRepository.MarkFailed repo id msg).2
  | RepoCall.scheduleRetry id rc at_ msg =>
    (MockNotificationRepository.ScheduleRetry repo id rc at_ msg).2

/-- `Worker.process` on one queue item, against the mock repository.
`limiterCancelled` models `limiter.Wait` returning a context-cancellation
error; `sendResult` is the provider outcome (`ok providerMsgID` or
`error message`).  The returned flag records whether `prov.Send` was reached.
The fire-and-forget `UpdateBatchCounts` goroutine is a no-op on the mock. -/
def process (backoff : List Nat) (now : Nat) (repo : MockRepo) (item : Item)
    (limiterCancelled : Bool) (sendResult : Except String String) :
    MockRepo × Bool :=
  match MockNotificationRepository.GetByID repo item.NotificationID with
  | Except.error _ => (repo, false)
  | Except.ok n =>
    if n.Status = StatusCancelled then (repo, false)
    else
      let repo1 :=
        (MockNotificationRepository.UpdateStatus repo n.ID StatusProcessing).2
      if limiterCancelled then (repo1, false)
      else
        match sendResult with
        | Except.error msg =>
          (applyRepoCall repo1 (handleFailure backoff now n msg), true)
        | Except.ok msgId =>
          ((MockNotificationRepository.MarkSent repo1 n.ID msgId now).2, true)

end Worker

/-! ### Service (`internal/service/notification_service.go`) -/

namespace NotificationService

/-- `NotificationService.buildNotification`.  `uuid.New()` and
`time.Now().UTC()` are nondeterministic inputs, passed as `freshId` / `now`. -/
def buildNotification (req : CreateNotificationRequest)
    (idempotencyKey : String) (batchID : Option String) (freshId : String)
    (now : Nat) : Notification :=
  let status :=
    if req.ScheduledAt.isSome then StatusScheduled else StatusPending
  { ID := freshId
    BatchID := batchID
    Channel := req.Channel
    Recipient := req.Recipient
    Content := req.Content
    Priority := req.Priority
    Status := status
    IdempotencyKey :=
      if idempotencyKey ≠ "" then some idempotencyKey else none
    RetryCount := 0
    MaxRetries := 3
    NextRetryAt := none
    ScheduledAt := req.ScheduledAt
    SentAt := none
    ProviderMsgID := none
    ErrorMessage := none
    CreatedAt := now
    UpdatedAt := now }

/-- `NotificationService.enqueue` (the private helper): skip scheduled rows;
on any enqueue error log and leave the row as written (still `pending`);
on success update the stored status to `queued` and mirror it on the local
copy.  The mock `UpdateStatus` never fails, so the early-return-on-error
branch of the Go code is not reachable here. -/
def enqueueSvc (repo : MockRepo) (q : PriorityQueue) (n : Notification) :
    MockRepo × PriorityQueue × Notification :=
  if n.ScheduledAt.isSome then (repo, q, n)
  else
    match PriorityQueue.Enqueue q
        { NotificationID := n.ID, Channel := n.Channel,
          Priority := n.Priority } with
    | (some _, qq) => (repo, qq, n)
    | (none, qq) =>
      let repo1 :=
        (MockNotificationRepository.UpdateStatus repo n.ID StatusQueued).2
      (repo1, qq, { n with Status := StatusQueued })

/-- Result bundle of `NotificationService.Create`: the returned pointer, the
duplicate flag, the returned error, and the post-call repository and queue. -/
structure CreateResult where
  notification : Option Notification
  duplicate : Bool
  error : Option DomainError
  repo : MockRepo
  queue : PriorityQueue
  deriving DecidableEq, Repr

/-- `NotificationService.Create` against the mock repository.  The mock's
`GetByIdempotencyKey` only fails with `ErrNotFound`, which the source treats
as "no existing record", so the `idempotency lookup` error branch is not
reachable here. -/
def Create (repo : MockRepo) (q : PriorityQueue)
    (req : CreateNotificationRequest) (idempotencyKey : String)
    (freshId : String) (now : Nat) : CreateResult :=
  match req.Validate with
  | some e =>
    { notification := none, duplicate := false, error := some e,
      repo := repo, queue := q }
  | none =>
    let existing : Option Notification :=
      if idempotencyKey ≠ "" then
        match MockNotificationRepository.GetByIdempotencyKey repo
            idempotencyKey with
        | Except.ok m => some m
        | Except.error _ => none
      else none
    match existing with
    | some m =>
      { notification := some m, duplicate := true, error := none,
        repo := repo, queue := q }
    | none =>
      let n := buildNotification req idempotencyKey none freshId now
      match MockNotificationRepository.Create repo n with
      | (some e, _) =>
        { notification := none, duplicate := false, error := some e,
          repo := repo, queue := q }
      | (none, repo1) =>
        let r := enqueueSvc repo1 q n
        { notification := some r.2.2, duplicate := false, error := none,
          repo := r.1, queue := r.2.1 }

/-- `NotificationService.Cancel`: fetch, gate on the current status, then
blind `repo.Cancel`.  The `switch` has cases only for `cancelled`,
`processing` and `sent`; every other status (including terminal `failed`)
falls through to `repo.Cancel`. -/
def Cancel (repo : MockRepo) (id : String) : Option DomainError × MockRepo :=
  match MockNotificationRepository.GetByID repo id with
  | Except.error e => (some e, repo)
  | Except.ok n =>
    if n.Status = StatusCancelled then
      (some DomainError.alreadyCancelled, repo)
    else if n.Status = StatusProcessing ∨ n.Status = StatusSent then
      (some DomainError.notCancellable, repo)
    else
      MockNotificationRepository.Cancel repo id

/-- The validation loop of `NotificationService.CreateBatch`: the first
invalid item aborts the whole batch (Go wraps the error with the item index;
the sentinel carried inside is what `errors.Is` and `mapError` see). -/
def validateAll (requests : List CreateNotificationRequest) :
    Option DomainError :=
  requests.findSome? (fun r => r.Validate)

/-- The post-commit loop of `CreateBatch`: enqueue every non-scheduled child
(the scheduled check is inside `enqueueSvc`). -/
def enqueueAll (repo : MockRepo) (q : PriorityQueue)
    (ns : List Notification) : MockRepo × PriorityQueue :=
  ns.foldl
    (fun acc n =>
      let r := enqueueSvc acc.1 acc.2 n
      (r.1, r.2.1))
    (repo, q)

/-- `NotificationService.CreateBatch` against the mock repository.
`uuid.New()` for the batch and the children are the `batchId` / `ids`
parameters; the shared `now` overrides every child's timestamps as in the
source (here `buildNotification` already stamps `now`). -/
def CreateBatch (repo : MockRepo) (q : PriorityQueue)
    (requests : List CreateNotificationRequest) (batchId : String)
    (ids : List String) (now : Nat) :
    Option Batch × Option DomainError × MockRepo × PriorityQueue :=
  if requests.length = 0 then
    (none, some DomainError.batchEmpty, repo, q)
  else if requests.length > 1000 then
    (none, some DomainError.batchTooLarge, repo, q)
  else
    match validateAll requests with
    | some e => (none, some e, repo, q)
    | none =>
      let ns :=
        (requests.zip ids).map
          (fun pr => buildNotification pr.1 "" (some batchId) pr.2 now)
      let r := MockNotificationRepository.CreateBatch repo batchId ns now
      let r2 := enqueueAll r.2 q ns
      (some r.1, none, r2.1, r2.2)

end NotificationService

/-! ### Association-list lemmas -/

/-- Number of stored notifications satisfying a predicate. -/
def countP (m : List (String × Notification)) (pred : Notification → Bool) :
    Nat :=
  (m.filter (fun p => pred p.2)).length

/-- Number of stored notifications carrying idempotency key `k`. -/
def countKey (m : List (String × Notification)) (k : String) : Nat :=
  countP m (fun n => n.IdempotencyKey = some k)

/-- Number of stored notifications belonging to batch `bid`. -/
def countBatch (m : List (String × Notification)) (bid : String) : Nat :=
  countP m (fun n => n.BatchID = some bid)

theorem mapUpdate_absent {k : String} {f : Notification → Notification} :
    ∀ {m : List (String × Notification)}, (∀ p ∈ m, p.1 ≠ k) →
      mapUpdate m k f = m := by
  intro m
  induction m with
  | nil => intro _; rfl
  | cons a t ih =>
    intro h
    have ha : ¬ (a.1 = k) := h a (List.mem_cons_self a t)
    have ht := ih (fun p hp => h p (List.mem_cons_of_mem a hp))
    simp only [mapUpdate, List.map_cons, if_neg ha]
    simpa [mapUpdate] using ht

theorem mapUpdate_append_single {k : String} {f : Notification → Notification}
    {m : List (String × Notification)} {v : Notification}
    (h : ∀ p ∈ m, p.1 ≠ k) :
    mapUpdate (m ++ [(k, v)]) k f = m ++ [(k, f v)] := by
  simp only [mapUpdate, List.map_append]
  rw [show (m.map fun p => if p.1 = k then (p.1, f p.2) else p) = m from
    mapUpdate_absent h]
  simp

theorem mapInsert_fresh {k : String} {v : Notification}
    {m : List (String × Notification)} (h : ∀ p ∈ m, p.1 ≠ k) :
    mapInsert m k v = m ++ [(k, v)] := by
  unfold mapInsert
  rw [if_neg]
  simp only [List.any_eq_true, not_exists, not_and]
  intro p hp
  simpa using h p hp

theorem mapGet_mapUpdate {k : String} {f : Notification → Notification} :
    ∀ m, mapGet (mapUpdate m k f) k = (mapGet m k).map f := by
  intro m
  induction m with
  | nil => rfl
  | cons a t ih =>
    by_cases ha : a.1 = k
    · simp [mapGet, mapUpdate, List.find?_cons, ha]
    · have h1 : mapUpdate (a :: t) k f = a :: mapUpdate t k f := by
        simp [mapUpdate, if_neg ha]
      have h2 : mapGet (a :: mapUpdate t k f) k = mapGet (mapUpdate t k f) k := by
        simp [mapGet, List.find?_cons, ha]
      have h3 : mapGet (a :: t) k = mapGet t k := by
        simp [mapGet, List.find?_cons, ha]
      rw [h1, h2, h3, ih]

theorem find?_append_of_none {α : Type} {p : α → Bool} :
    ∀ {l1 : List α} (l2 : List α), l1.find? p = none →
      (l1 ++ l2).find? p = l2.find? p := by
  intro l1
  induction l1 with
  | nil => intro l2 _; rfl
  | cons a t ih =>
    intro l2 h
    cases hpa : p a with
    | false =>
      have hpa2 : ¬ p a = true := by simp [hpa]
      rw [List.find?_cons_of_neg _ hpa2] at h
      rw [List.cons_append, List.find?_cons_of_neg _ hpa2]
      exact ih l2 h
    | true =>
      rw [List.find?_cons_of_pos _ hpa] at h
      cases h

theorem countP_append {pred : Notification → Bool}
    (m l : List (String × Notification)) :
    countP (m ++ l) pred = countP m pred + countP l pred := by
  simp [countP, List.filter_append]

theorem countP_mapUpdate {k : String} {f : Notification → Notification}
    {pred : Notification → Bool} (hf : ∀ n, pred (f n) = pred n) :
    ∀ m, countP (mapUpdate m k f) pred = countP m pred := by
  intro m
  induction m with
  | nil => rfl
  | cons a t ih =>
    by_cases ha : a.1 = k
    · simp only [mapUpdate, List.map_cons, if_pos ha]
      simp only [countP, List.filter_cons, hf a.2] at ih ⊢
      by_cases hp : pred a.2 <;> simp [hp, ← ih, mapUpdate, countP]
    · simp only [mapUpdate, List.map_cons, if_neg ha]
      simp only [countP, List.filter_cons] at ih ⊢
      by_cases hp : pred a.2 <;> simp [hp, ← ih, mapUpdate, countP]

theorem countP_eq_zero {pred : Notification → Bool}
    {m : List (String × Notification)} (h : ∀ p ∈ m, pred p.2 = false) :
    countP m pred = 0 := by
  simp only [countP, List.length_eq_zero, List.filter_eq_nil_iff]
  intro p hp
  simp [h p hp]

/-- The two possible outcomes of the service-level enqueue helper: the store
untouched (scheduled row, full tier, or unknown priority), or the single row
`n.ID` transitioned to `queued`, mirrored on the returned copy. -/
theorem enqueueSvc_cases (repo : MockRepo) (q : PriorityQueue)
    (n : Notification) :
    (∃ qq, NotificationService.enqueueSvc repo q n = (repo, qq, n)) ∨
    (∃ qq, NotificationService.enqueueSvc repo q n =
      ({ repo with
          notifications := mapUpdate repo.notifications n.ID
            (fun m => { m with Status := StatusQueued }) }, qq,
        { n with Status := StatusQueued })) := by
  by_cases hs : n.ScheduledAt.isSome
  · left
    exact ⟨q, by simp [NotificationService.enqueueSvc, hs]⟩
  · rcases hE : PriorityQueue.Enqueue q
        { NotificationID := n.ID, Channel := n.Channel,
          Priority := n.Priority } with ⟨oe, qq⟩
    cases oe with
    | some e =>
      left
      exact ⟨qq, by simp [NotificationService.enqueueSvc, hs, hE]⟩
    | none =>
      right
      refine ⟨qq, ?_⟩
      simp [NotificationService.enqueueSvc, hs, hE,
        MockNotificationRepository.UpdateStatus]

/-- The enqueue loop after a batch commit only flips statuses to `queued`:
it never adds or removes rows, touches no other field, and leaves the batch
map alone. -/
theorem enqueueAll_preserves (pred : Notification → Bool)
    (hpred : ∀ m, pred { m with Status := StatusQueued } = pred m) :
    ∀ (ns : List Notification) (repo : MockRepo) (q : PriorityQueue),
      countP (NotificationService.enqueueAll repo q ns).1.notifications pred =
        countP repo.notifications pred ∧
      (NotificationService.enqueueAll repo q ns).1.batches = repo.batches := by
  intro ns
  induction ns with
  | nil => intro repo q; exact ⟨rfl, rfl⟩
  | cons n t ih =>
    intro repo q
    rcases enqueueSvc_cases repo q n with ⟨qq, hE⟩ | ⟨qq, hE⟩
    · have hstep : NotificationService.enqueueAll repo q (n :: t) =
          NotificationService.enqueueAll repo qq t := by
        simp [NotificationService.enqueueAll, hE]
      rw [hstep]
      exact ih repo qq
    · have hstep : NotificationService.enqueueAll repo q (n :: t) =
          NotificationService.enqueueAll
            { repo with
              notifications := mapUpdate repo.notifications n.ID
                (fun m => { m with Status := StatusQueued }) } qq t := by
        simp [NotificationService.enqueueAll, hE]
      rw [hstep]
      obtain ⟨h1, h2⟩ := ih
        { repo with
          notifications := mapUpdate repo.notifications n.ID
            (fun m => { m with Status := StatusQueued }) } qq
      refine ⟨?_, h2⟩
      rw [h1]
      exact countP_mapUpdate hpred repo.notifications

/-! ### Sample data used by witness statements -/

/-- A high-priority queue item. -/
def itemH : Item :=
  { NotificationID := "n-high", Channel := "sms", Priority := "high" }

/-- A normal-priority queue item. -/
def itemN : Item :=
  { NotificationID := "n-normal", Channel := "email", Priority := "normal" }

/-- A queue with one waiting high item and one waiting normal item. -/
def qHigh1 : PriorityQueue := { high := [itemH], normal := [itemN], low := [] }

/-- A queue whose high tier sits exactly at its capacity of 1000. -/
def qFullHigh : PriorityQueue :=
  { high := List.replicate 1000 itemH, normal := [], low := [] }

/-! ### C1 — starvation-free dequeue -/

/-- C1: whenever the high tier is non-empty at the moment `Dequeue` runs, the
call returns the head of the high tier — never a normal- or low-tier item —
and pops only the high tier. -/
theorem dequeue_serves_high_first (q : PriorityQueue) (res : Option Item)
    (qq : PriorityQueue) (hne : q.high ≠ []) (hstep : DequeueStep q res qq) :
    ∃ item rest, q.high = item :: rest ∧ res = some item ∧
      qq = { q with high := rest } := by
  cases hstep with
  | high item rest h => exact ⟨item, rest, h, rfl, rfl⟩
  | normal item rest hH _ => exact absurd hH hne
  | low item rest hH _ => exact absurd hH hne
  | ctxDone hH => exact absurd hH hne

/-- Witness for C1 at a concrete queue holding one high and one normal item. -/
theorem dequeue_serves_high_first_witness :
    ∃ item rest, qHigh1.high = item :: rest ∧
      (some itemH : Option Item) = some item ∧
      ({ qHigh1 with high := [] } : PriorityQueue) =
        { qHigh1 with high := rest } :=
  dequeue_serves_high_first qHigh1 (some itemH) { qHigh1 with high := [] }
    (by decide) (DequeueStep.high qHigh1 itemH [] rfl)

/-! ### C6 — non-blocking enqueue -/

/-- C6: for each of the three priority tiers (capacities high 1000,
normal 5000, low 2000), `Enqueue` on a tier at capacity returns
`ErrQueueFull` immediately with every tier untouched, and on a tier with room
appends the item at that tier's tail and succeeds. -/
theorem enqueue_nonblocking (q : PriorityQueue) (item : Item) :
    (item.Priority = PriorityHigh →
      (highCapacity ≤ q.high.length →
        PriorityQueue.Enqueue q item = (some EnqueueError.queueFull, q)) ∧
      (q.high.length < highCapacity →
        PriorityQueue.Enqueue q item =
          (none, { q with high := q.high ++ [item] }))) ∧
    (item.Priority = PriorityNormal →
      (normalCapacity ≤ q.normal.length →
        PriorityQueue.Enqueue q item = (some EnqueueError.queueFull, q)) ∧
      (q.normal.length < normalCapacity →
        PriorityQueue.Enqueue q item =
          (none, { q with normal := q.normal ++ [item] }))) ∧
    (item.Priority = PriorityLow →
      (lowCapacity ≤ q.low.length →
        PriorityQueue.Enqueue q item = (some EnqueueError.queueFull, q)) ∧
      (q.low.length < lowCapacity →
        PriorityQueue.Enqueue q item =
          (none, { q with low := q.low ++ [item] }))) := by
  refine ⟨fun hp => ⟨fun hfull => ?_, fun hroom => ?_⟩,
    fun hp => ⟨fun hfull => ?_, fun hroom => ?_⟩,
    fun hp => ⟨fun hfull => ?_, fun hroom => ?_⟩⟩
  · have hc : ¬ (q.high.length < highCapacity) := by omega
    simp [PriorityQueue.Enqueue, hp, hc]
  · simp [PriorityQueue.Enqueue, hp, hroom]
  · have hne : ¬ (PriorityNormal = PriorityHigh) := by decide
    have hc : ¬ (q.normal.length < normalCapacity) := by omega
    simp [PriorityQueue.Enqueue, hp, hne, hc]
  · have hne : ¬ (PriorityNormal = PriorityHigh) := by decide
    simp [PriorityQueue.Enqueue, hp, hne, hroom]
  · have hne1 : ¬ (PriorityLow = PriorityHigh) := by decide
    have hne2 : ¬ (PriorityLow = PriorityNormal) := by decide
    have hc : ¬ (q.low.length < lowCapacity) := by omega
    simp [PriorityQueue.Enqueue, hp, hne1, hne2, hc]
  · have hne1 : ¬ (PriorityLow = PriorityHigh) := by decide
    have hne2 : ¬ (PriorityLow = PriorityNormal) := by decide
    simp [PriorityQueue.Enqueue, hp, hne1, hne2, hroom]

/-- Witness for C6: a saturated high tier rejects with `queueFull` and stays
put; a high tier with room accepts at the tail. -/
theorem enqueue_nonblocking_witness :
    PriorityQueue.Enqueue qFullHigh itemH =
      (some EnqueueError.queueFull, qFullHigh) ∧
    PriorityQueue.Enqueue qHigh1 itemH =
      (none, { qHigh1 with high := qHigh1.high ++ [itemH] }) :=
  ⟨((enqueue_nonblocking qFullHigh itemH).1 rfl).1
      (by simp [qFullHigh, highCapacity]),
    ((enqueue_nonblocking qHigh1 itemH).1 rfl).2
      (by simp [qHigh1, highCapacity])⟩

/-! ### C2 — retry policy in `Worker.handleFailure` -/

/-- C2: on a provider failure with current retry count `r`, the worker calls
`MarkFailed` when `r ≥ max_retries`, and otherwise calls `ScheduleRetry` with
retry count `r + 1` and `next_retry_at = now + B[min r (len B - 1)]`; for
`r ≥ len B` the delay is the last element of `B` (clamping). -/
theorem handleFailure_retry_policy (backoff : List Nat) (hB : backoff ≠ [])
    (n : Notification) (errMsg : String) (now : Nat) :
    (n.MaxRetries ≤ n.RetryCount →
      Worker.handleFailure backoff now n errMsg =
        RepoCall.markFailed n.ID errMsg) ∧
    (n.RetryCount < n.MaxRetries →
      Worker.handleFailure backoff now n errMsg =
        RepoCall.scheduleRetry n.ID (n.RetryCount + 1)
          (now + backoff.getD (min n.RetryCount (backoff.length - 1)) 0)
          errMsg ∧
      (backoff.length ≤ n.RetryCount →
        backoff.getD (min n.RetryCount (backoff.length - 1)) 0 =
          backoff.getLast hB)) := by
  have hlen : 0 < backoff.length := List.length_pos.mpr hB
  constructor
  · intro h
    simp only [Worker.handleFailure]
    rw [if_pos h]
  · intro h
    have hno : ¬ (n.RetryCount ≥ n.MaxRetries) := Nat.not_le.mpr h
    have hidx :
        (if n.RetryCount ≥ backoff.length then backoff.length - 1
          else n.RetryCount) = min n.RetryCount (backoff.length - 1) := by
      by_cases hc : backoff.length ≤ n.RetryCount
      · rw [if_pos hc, Nat.min_eq_right (by omega)]
      · rw [if_neg hc, Nat.min_eq_left (by omega)]
    constructor
    · simp only [Worker.handleFailure]
      rw [if_neg hno, hidx]
    · intro hclamp
      have hmin : min n.RetryCount (backoff.length - 1) =
          backoff.length - 1 := Nat.min_eq_right (by omega)
      rw [hmin, List.getD_eq_getElem?_getD,
        List.getElem?_eq_getElem (by omega), List.getLast_eq_getElem]
      rfl

/-- Witness for C2: retry count 1 of max 3 with the default backoff schedules
the 30 s step; retry count 3 marks the row failed; retry count 5 of max 9
clamps to the last backoff entry. -/
theorem handleFailure_retry_policy_witness :
    Worker.handleFailure [5, 30, 120] 100
      { ID := "n1", BatchID := none, Channel := "sms", Recipient := "r",
        Content := "c", Priority := "high", Status := "failed",
        IdempotencyKey := none, RetryCount := 1, MaxRetries := 3,
        NextRetryAt := none, ScheduledAt := none, SentAt := none,
        ProviderMsgID := none, ErrorMessage := none, CreatedAt := 0,
        UpdatedAt := 0 } "boom" =
      RepoCall.scheduleRetry "n1" 2 130 "boom" ∧
    Worker.handleFailure [5, 30, 120] 100
      { ID := "n1", BatchID := none, Channel := "sms", Recipient := "r",
        Content := "c", Priority := "high", Status := "failed",
        IdempotencyKey := none, RetryCount := 3, MaxRetries := 3,
        NextRetryAt := none, ScheduledAt := none, SentAt := none,
        ProviderMsgID := none, ErrorMessage := none, CreatedAt := 0,
        UpdatedAt := 0 } "boom" =
      RepoCall.markFailed "n1" "boom" ∧
    Worker.handleFailure [5, 30, 120] 100
      { ID := "n1", BatchID := none, Channel := "sms", Recipient := "r",
        Content := "c", Priority := "high", Status := "failed",
        IdempotencyKey := none, RetryCount := 5, MaxRetries := 9,
        NextRetryAt := none, ScheduledAt := none, SentAt := none,
        ProviderMsgID := none, ErrorMessage := none, CreatedAt := 0,
        UpdatedAt := 0 } "boom" =
      RepoCall.scheduleRetry "n1" 6 220 "boom" := by
  refine ⟨?_, ?_, ?_⟩
  · have h := (handleFailure_retry_policy [5, 30, 120] (by decide)
      { ID := "n1", BatchID := none, Channel := "sms", Recipient := "r",
        Content := "c", Priority := "high", Status := "failed",
        IdempotencyKey := none, RetryCount := 1, MaxRetries := 3,
        NextRetryAt := none, ScheduledAt := none, SentAt := none,
        ProviderMsgID := none, ErrorMessage := none, CreatedAt := 0,
        UpdatedAt := 0 } "boom" 100).2 (by decide)
    simpa using h.1
  · exact (handleFailure_retry_policy [5, 30, 120] (by decide)
      { ID := "n1", BatchID := none, Channel := "sms", Recipient := "r",
        Content := "c", Priority := "high", Status := "failed",
        IdempotencyKey := none, RetryCount := 3, MaxRetries := 3,
        NextRetryAt := none, ScheduledAt := none, SentAt := none,
        ProviderMsgID := none, ErrorMessage := none, CreatedAt := 0,
        UpdatedAt := 0 } "boom" 100).1 (by decide)
  · have h := (handleFailure_retry_policy [5, 30, 120] (by decide)
      { ID := "n1", BatchID := none, Channel := "sms", Recipient := "r",
        Content := "c", Priority := "high", Status := "failed",
        IdempotencyKey := none, RetryCount := 5, MaxRetries := 9,
        NextRetryAt := none, ScheduledAt := none, SentAt := none,
        ProviderMsgID := none, ErrorMessage := none, CreatedAt := 0,
        UpdatedAt := 0 } "boom" 100).2 (by decide)
    simpa using h.1

/-! ### C10 — mutations on an absent id -/

/-- C10: every mock mutation (`UpdateStatus`, `MarkSent`, `MarkFailed`,
`ScheduleRetry`, `Cancel`) on an id that is not in the store returns `nil`
and leaves the store untouched. -/
theorem mutations_on_absent_id_noop (repo : MockRepo) (id : String)
    (h : ∀ p ∈ repo.notifications, p.1 ≠ id) :
    (∀ status, MockNotificationRepository.UpdateStatus repo id status =
      (none, repo)) ∧
    (∀ msgId sentAt, MockNotificationRepository.MarkSent repo id msgId sentAt =
      (none, repo)) ∧
    (∀ errMsg, MockNotificationRepository.MarkFailed repo id errMsg =
      (none, repo)) ∧
    (∀ rc nra errMsg,
      MockNotificationRepository.ScheduleRetry repo id rc nra errMsg =
        (none, repo)) ∧
    MockNotificationRepository.Cancel repo id = (none, repo) := by
  refine ⟨fun status => ?_, fun msgId sentAt => ?_, fun errMsg => ?_,
    fun rc nra errMsg => ?_, ?_⟩ <;>
    simp [MockNotificationRepository.UpdateStatus,
      MockNotificationRepository.MarkSent,
      MockNotificationRepository.MarkFailed,
      MockNotificationRepository.ScheduleRetry,
      MockNotificationRepository.Cancel, mapUpdate_absent h]

/-- Witness for C10 on the empty store. -/
theorem mutations_on_absent_id_noop_witness :
    MockNotificationRepository.Cancel NewMockNotificationRepository
      "missing" = (none, NewMockNotificationRepository) ∧
    MockNotificationRepository.UpdateStatus NewMockNotificationRepository
      "missing" StatusSent = (none, NewMockNotificationRepository) := by
  have h := mutations_on_absent_id_noop NewMockNotificationRepository
    "missing" (by intro p hp; simp [NewMockNotificationRepository] at hp)
  exact ⟨h.2.2.2.2, h.1 StatusSent⟩

/-! ### C8 — `mark_failed` and `next_retry_at` -/

/-- A retries-exhausted notification that still carries the `next_retry_at`
written by its last `ScheduleRetry`. -/
def nRetrySpent : Notification :=
  { ID := "n1", BatchID := none, Channel := "sms", Recipient := "r",
    Content := "c", Priority := "high", Status := "failed",
    IdempotencyKey := none, RetryCount := 3, MaxRetries := 3,
    NextRetryAt := some 50, ScheduledAt := none, SentAt := none,
    ProviderMsgID := none, ErrorMessage := some "e1", CreatedAt := 0,
    UpdatedAt := 0 }

/-- Store holding only `nRetrySpent`. -/
def repoRetrySpent : MockRepo :=
  { notifications := [("n1", nRetrySpent)], batches := [] }

/-- C8 counterexample: the mock `MarkFailed` sets status and error message
but does not clear `next_retry_at` — after the call the stored row still has
`NextRetryAt = some 50`, so the claim "mark_failed … clears next_retry_at"
fails on `MockNotificationRepository.MarkFailed`. -/
theorem mock_mark_failed_keeps_next_retry :
    mapGet ((MockNotificationRepository.MarkFailed repoRetrySpent "n1"
        "boom").2).notifications "n1" =
      some { nRetrySpent with
        Status := StatusFailed, ErrorMessage := some "boom" } ∧
    ({ nRetrySpent with
        Status := StatusFailed, ErrorMessage := some "boom" } :
      Notification).NextRetryAt = some 50 := by
  constructor
  · rfl
  · rfl

/-- C8 amended: the PostgreSQL `MarkFailed` (the `UPDATE … SET
status = 'failed', error_message = $1, next_retry_at = NULL`) does set
status=failed, record the error message, clear `next_retry_at`, and leave
`retry_count` untouched — so under the pg repository a retries-exhausted row
ends with status=failed, retry_count=max_retries, next_retry_at=null and
error_message set.  The mock `MarkFailed` leaves `next_retry_at` unchanged. -/
theorem pg_mark_failed_clears_next_retry (m : List (String × Notification))
    (id errMsg : String) (n : Notification) (h : mapGet m id = some n) :
    mapGet (pgNotificationRepository.MarkFailed m id errMsg) id =
      some { n with
        Status := StatusFailed
        ErrorMessage := some errMsg
        NextRetryAt := none } := by
  unfold pgNotificationRepository.MarkFailed
  rw [mapGet_mapUpdate, h]
  rfl

/-- Witness for the amended C8 at the exhausted sample row. -/
theorem pg_mark_failed_clears_next_retry_witness :
    mapGet (pgNotificationRepository.MarkFailed [("n1", nRetrySpent)] "n1"
        "boom") "n1" =
      some { nRetrySpent with
        Status := StatusFailed
        ErrorMessage := some "boom"
        NextRetryAt := none } :=
  pg_mark_failed_clears_next_retry [("n1", nRetrySpent)] "n1" "boom"
    nRetrySpent rfl

/-- `GetByID` succeeds exactly on a present id, returning the stored row. -/
theorem GetByID_ok_iff {repo : MockRepo} {id : String} {n : Notification} :
    MockNotificationRepository.GetByID repo id = Except.ok n ↔
      mapGet repo.notifications id = some n := by
  unfold MockNotificationRepository.GetByID
  cases hm : mapGet repo.notifications id <;> simp [hm]

/-! ### C3 — terminal-state immutability -/

/-- C3 counterexample: `nRetrySpent` is terminal by the spec's definition
(status `failed` with `retry_count = max_retries = 3`), yet the service's
`Cancel` accepts it — the switch in `NotificationService.Cancel` never looks
at the retry count — and rewrites the row to `cancelled`. -/
theorem cancel_modifies_exhausted_failed :
    nRetrySpent.Status = StatusFailed ∧
    nRetrySpent.RetryCount = nRetrySpent.MaxRetries ∧
    (NotificationService.Cancel repoRetrySpent "n1").1 = none ∧
    mapGet (NotificationService.Cancel repoRetrySpent "n1").2.notifications
        "n1" =
      some { nRetrySpent with Status := StatusCancelled } := by
  refine ⟨rfl, rfl, ?_, ?_⟩ <;> rfl

/-- C3 amended: `Cancel` never modifies a `sent` or `cancelled` row — it
returns the legal-state error with the store untouched — but a `failed` row
is cancellable regardless of its retry count, so a notification with
`retry_count = max_retries` is still rewritten to `cancelled`. -/
theorem terminal_sent_cancelled_immutable (repo : MockRepo) (id : String)
    (n : Notification)
    (h : MockNotificationRepository.GetByID repo id = Except.ok n) :
    (n.Status = StatusSent →
      NotificationService.Cancel repo id =
        (some DomainError.notCancellable, repo)) ∧
    (n.Status = StatusCancelled →
      NotificationService.Cancel repo id =
        (some DomainError.alreadyCancelled, repo)) ∧
    (n.Status = StatusFailed →
      NotificationService.Cancel repo id =
        (none, { repo with
          notifications := mapUpdate repo.notifications id
            (fun m => { m with Status := StatusCancelled }) })) := by
  refine ⟨fun hs => ?_, fun hs => ?_, fun hs => ?_⟩
  · have h1 : ¬ (StatusSent = StatusCancelled) := by decide
    simp [NotificationService.Cancel, h, hs, h1]
  · simp [NotificationService.Cancel, h, hs]
  · have h1 : ¬ (StatusFailed = StatusCancelled) := by decide
    have h2 : ¬ (StatusFailed = StatusProcessing ∨ StatusFailed = StatusSent) :=
      by decide
    simp [NotificationService.Cancel, h, hs, h1, h2,
      MockNotificationRepository.Cancel]

/-- Witness for the amended C3: cancelling `nRetrySpent` (terminal `failed`)
really does rewrite it. -/
theorem terminal_sent_cancelled_immutable_witness :
    NotificationService.Cancel repoRetrySpent "n1" =
      (none, { repoRetrySpent with
        notifications := mapUpdate repoRetrySpent.notifications "n1"
          (fun m => { m with Status := StatusCancelled }) }) :=
  (terminal_sent_cancelled_immutable repoRetrySpent "n1" nRetrySpent
    rfl).2.2 rfl

/-! ### C4 — cancel legality and suppressed dispatch -/

/-- C4: `Cancel` on a row in `{pending, queued, scheduled,
failed-with-retries-left}` transitions exactly that row to `cancelled`, and a
worker that dequeues an item for it afterwards observes the cancelled status
and returns without calling the provider or mutating the store; `Cancel` on
`{processing, sent}` returns `ErrNotCancellable` and on `cancelled` returns
`ErrAlreadyCancelled`, leaving the store unmodified in both cases. -/
theorem cancel_legality (repo : MockRepo) (id : String) (n : Notification)
    (h : MockNotificationRepository.GetByID repo id = Except.ok n) :
    ((n.Status = StatusPending ∨ n.Status = StatusQueued ∨
        n.Status = StatusScheduled ∨
        (n.Status = StatusFailed ∧ n.RetryCount < n.MaxRetries)) →
      NotificationService.Cancel repo id =
        (none, { repo with
          notifications := mapUpdate repo.notifications id
            (fun m => { m with Status := StatusCancelled }) }) ∧
      (∀ (backoff : List Nat) (now : Nat) (item : Item)
          (limiterCancelled : Bool) (sendResult : Except String String),
        item.NotificationID = id →
        Worker.process backoff now
          { repo with
            notifications := mapUpdate repo.notifications id
              (fun m => { m with Status := StatusCancelled }) }
          item limiterCancelled sendResult =
          ({ repo with
            notifications := mapUpdate repo.notifications id
              (fun m => { m with Status := StatusCancelled }) }, false))) ∧
    ((n.Status = StatusProcessing ∨ n.Status = StatusSent) →
      NotificationService.Cancel repo id =
        (some DomainError.notCancellable, repo)) ∧
    (n.Status = StatusCancelled →
      NotificationService.Cancel repo id =
        (some DomainError.alreadyCancelled, repo)) := by
  have hm : mapGet repo.notifications id = some n := GetByID_ok_iff.mp h
  refine ⟨fun hs => ?_, fun hs => ?_, fun hs => ?_⟩
  · have hcancel : NotificationService.Cancel repo id =
        (none, { repo with
          notifications := mapUpdate repo.notifications id
            (fun m => { m with Status := StatusCancelled }) }) := by
      rcases hs with hs | hs | hs | ⟨hs, _⟩ <;>
      · have h1 : ¬ (n.Status = StatusCancelled) := by rw [hs]; decide
        have h2 : ¬ (n.Status = StatusProcessing ∨ n.Status = StatusSent) := by
          rw [hs]; decide
        simp [NotificationService.Cancel, h, h1, h2,
          MockNotificationRepository.Cancel]
    refine ⟨hcancel, ?_⟩
    intro backoff now item lim send hitem
    have hm2 : mapGet (mapUpdate repo.notifications id
        (fun m => { m with Status := StatusCancelled })) id =
        some { n with Status := StatusCancelled } := by
      rw [mapGet_mapUpdate, hm]; rfl
    have hget2 : MockNotificationRepository.GetByID
        { repo with
          notifications := mapUpdate repo.notifications id
            (fun m => { m with Status := StatusCancelled }) } id =
        Except.ok { n with Status := StatusCancelled } :=
      GetByID_ok_iff.mpr hm2
    simp [Worker.process, hitem, hget2]
  · rcases hs with hs | hs <;>
    · have h1 : ¬ (n.Status = StatusCancelled) := by rw [hs]; decide
      have h2 : n.Status = StatusProcessing ∨ n.Status = StatusSent := by
        rw [hs]; decide
      simp [NotificationService.Cancel, h, h1, h2]
  · simp [NotificationService.Cancel, h, hs]

/-- A still-pending notification and its one-row store, for the C4 witness. -/
def nPend : Notification :=
  { ID := "n2", BatchID := none, Channel := "sms", Recipient := "r",
    Content := "c", Priority := "high", Status := "pending",
    IdempotencyKey := none, RetryCount := 0, MaxRetries := 3,
    NextRetryAt := none, ScheduledAt := none, SentAt := none,
    ProviderMsgID := none, ErrorMessage := none, CreatedAt := 0,
    UpdatedAt := 0 }

/-- Store holding only `nPend`. -/
def repoPend : MockRepo := { notifications := [("n2", nPend)], batches := [] }

/-- Witness for C4: cancelling the pending `nPend` succeeds, and a worker
that then processes an item for it touches nothing and never reaches the
provider. -/
theorem cancel_legality_witness :
    NotificationService.Cancel repoPend "n2" =
      (none, { repoPend with
        notifications := mapUpdate repoPend.notifications "n2"
          (fun m => { m with Status := StatusCancelled }) }) ∧
    Worker.process [5, 30, 120] 7
      { repoPend with
        notifications := mapUpdate repoPend.notifications "n2"
          (fun m => { m with Status := StatusCancelled }) }
      { NotificationID := "n2", Channel := "sms", Priority := "high" }
      false (Except.ok "mid") =
      ({ repoPend with
        notifications := mapUpdate repoPend.notifications "n2"
          (fun m => { m with Status := StatusCancelled }) }, false) := by
  have h := (cancel_legality repoPend "n2" nPend rfl).1 (Or.inl rfl)
  exact ⟨h.1, h.2 [5, 30, 120] 7
    { NotificationID := "n2", Channel := "sms", Priority := "high" }
    false (Except.ok "mid") rfl⟩

/-- Map assignment followed by lookup of the same key yields the value. -/
theorem mapGet_mapInsert (k : String) (v : Notification) :
    ∀ m, mapGet (mapInsert m k v) k = some v := by
  intro m
  induction m with
  | nil => simp [mapInsert, mapGet]
  | cons a t ih =>
    by_cases ha : a.1 = k
    · have hany : (a :: t).any (fun p => p.1 = k) = true := by
        simp [List.any_cons, ha]
      rw [mapInsert, if_pos hany]
      simp [mapGet, List.find?_cons, ha]
    · have hstep : mapInsert (a :: t) k v = a :: mapInsert t k v := by
        unfold mapInsert
        by_cases hany : t.any (fun p => p.1 = k)
        · rw [if_pos (by simp [List.any_cons, hany]), if_pos hany]
          simp [if_neg ha]
        · rw [if_neg (by simp [List.any_cons, ha, hany]), if_neg hany]
          simp
      have hhead : mapGet (a :: mapInsert t k v) k =
          mapGet (mapInsert t k v) k := by
        simp [mapGet, List.find?_cons, ha]
      rw [hstep, hhead, ih]

/-! ### C7 — queue-full handling at intake -/

/-- A valid high-priority request, as in the service tests. -/
def reqHigh : CreateNotificationRequest :=
  { Channel := "sms", Recipient := "+905551234567", Content := "Hello",
    Priority := "high", ScheduledAt := none }

/-- C7 counterexample: with the high tier saturated, `Create` succeeds —
`error = none`, so `ErrQueueFull` is never surfaced to the caller (no 503) —
while the row is persisted and stays `pending` and the queue is unchanged. -/
theorem create_swallows_queue_full :
    (NotificationService.Create NewMockNotificationRepository qFullHigh
      reqHigh "" "id1" 0).error = none ∧
    (NotificationService.Create NewMockNotificationRepository qFullHigh
      reqHigh "" "id1" 0).notification =
      some (NotificationService.buildNotification reqHigh "" none "id1" 0) ∧
    (NotificationService.buildNotification reqHigh "" none "id1" 0).Status =
      StatusPending ∧
    mapGet (NotificationService.Create NewMockNotificationRepository qFullHigh
      reqHigh "" "id1" 0).repo.notifications "id1" =
      some (NotificationService.buildNotification reqHigh "" none "id1" 0) ∧
    (NotificationService.Create NewMockNotificationRepository qFullHigh
      reqHigh "" "id1" 0).queue = qFullHigh := by
  refine ⟨rfl, rfl, rfl, rfl, rfl⟩

/-- C7 amended: when intake finds the target tier saturated, the service
swallows the error — `Create` returns the notification with `error = none`
(no 503 reaches the caller) — the persisted row remains `pending`, and the
queue is left unchanged.  `mapError` would translate `ErrQueueFull` to 503
had it been returned. -/
theorem queue_full_leaves_pending (repo : MockRepo) (q : PriorityQueue)
    (req : CreateNotificationRequest) (freshId : String) (now : Nat)
    (hvalid : req.Validate = none) (hsched : req.ScheduledAt = none)
    (hfull : PriorityQueue.Enqueue q
      { NotificationID := freshId, Channel := req.Channel,
        Priority := req.Priority } = (some EnqueueError.queueFull, q)) :
    NotificationService.Create repo q req "" freshId now =
      { notification :=
          some (NotificationService.buildNotification req "" none freshId now),
        duplicate := false, error := none,
        repo := { repo with
          notifications := mapInsert repo.notifications freshId
            (NotificationService.buildNotification req "" none freshId now) },
        queue := q } ∧
    (NotificationService.buildNotification req "" none freshId now).Status =
      StatusPending ∧
    mapGet (mapInsert repo.notifications freshId
        (NotificationService.buildNotification req "" none freshId now))
        freshId =
      some (NotificationService.buildNotification req "" none freshId now) ∧
    mapError DomainError.queueFull = 503 := by
  have hstatus :
      (NotificationService.buildNotification req "" none freshId now).Status =
        StatusPending := by
    simp [NotificationService.buildNotification, hsched]
  refine ⟨?_, hstatus, mapGet_mapInsert _ _ _, rfl⟩
  have hs2 :
      (NotificationService.buildNotification req "" none freshId now
        ).ScheduledAt = none := hsched
  have henq : NotificationService.enqueueSvc
      { repo with
        notifications := mapInsert repo.notifications freshId
          (NotificationService.buildNotification req "" none freshId now) } q
      (NotificationService.buildNotification req "" none freshId now) =
      ({ repo with
        notifications := mapInsert repo.notifications freshId
          (NotificationService.buildNotification req "" none freshId now) },
        q,
        NotificationService.buildNotification req "" none freshId now) := by
    have hfull2 : PriorityQueue.Enqueue q
        { NotificationID :=
            (NotificationService.buildNotification req "" none freshId
              now).ID,
          Channel :=
            (NotificationService.buildNotification req "" none freshId
              now).Channel,
          Priority :=
            (NotificationService.buildNotification req "" none freshId
              now).Priority } = (some EnqueueError.queueFull, q) := hfull
    simp [NotificationService.enqueueSvc, hs2, hfull2]
  have hkey :
      (NotificationService.buildNotification req "" none freshId now
        ).IdempotencyKey = none := rfl
  have hid :
      (NotificationService.buildNotification req "" none freshId now).ID =
        freshId := rfl
  simp only [NotificationService.Create, hvalid]
  simp only [ne_eq, not_true_eq_false, if_false]
  simp only [MockNotificationRepository.Create, hkey]
  simp only [hid]
  simp [henq]

/-- Witness for the amended C7 at a saturated high tier. -/
theorem queue_full_leaves_pending_witness :
    NotificationService.Create NewMockNotificationRepository qFullHigh
      reqHigh "" "id1" 0 =
      { notification :=
          some (NotificationService.buildNotification reqHigh "" none "id1" 0),
        duplicate := false, error := none,
        repo := { NewMockNotificationRepository with
          notifications := mapInsert NewMockNotificationRepository.notifications
            "id1" (NotificationService.buildNotification reqHigh "" none "id1"
              0) },
        queue := qFullHigh } ∧
    (NotificationService.buildNotification reqHigh "" none "id1" 0).Status =
      StatusPending ∧
    mapGet (mapInsert NewMockNotificationRepository.notifications "id1"
        (NotificationService.buildNotification reqHigh "" none "id1" 0))
        "id1" =
      some (NotificationService.buildNotification reqHigh "" none "id1" 0) ∧
    mapError DomainError.queueFull = 503 :=
  queue_full_leaves_pending NewMockNotificationRepository qFullHigh reqHigh
    "id1" 0 rfl rfl rfl

/-! ### C5 — idempotent intake -/

/-- When a notification with the requested idempotency key is already stored,
`Create` returns it as a duplicate and changes nothing. -/
theorem create_duplicate_shape (repo : MockRepo) (q : PriorityQueue)
    (req : CreateNotificationRequest) (key id2 : String) (now2 : Nat)
    (hvalid : req.Validate = none) (hkey : key ≠ "") (m : Notification)
    (hget : MockNotificationRepository.GetByIdempotencyKey repo key =
      Except.ok m) :
    NotificationService.Create repo q req key id2 now2 =
      { notification := some m, duplicate := true, error := none,
        repo := repo, queue := q } := by
  simp [NotificationService.Create, hvalid, hget, hkey]

/-- When no stored notification carries the requested key and the fresh id is
unused, `Create` appends exactly one new row holding the key, and returns
that row. -/
theorem create_fresh_shape (repo : MockRepo) (q : PriorityQueue)
    (req : CreateNotificationRequest) (key freshId : String) (now : Nat)
    (hkey : key ≠ "") (hvalid : req.Validate = none)
    (h0 : ∀ p ∈ repo.notifications, p.2.IdempotencyKey ≠ some key)
    (h1 : ∀ p ∈ repo.notifications, p.1 ≠ freshId) :
    ∃ n1 qq, NotificationService.Create repo q req key freshId now =
      { notification := some n1, duplicate := false, error := none,
        repo := { repo with
          notifications := repo.notifications ++ [(freshId, n1)] },
        queue := qq } ∧
      n1.ID = freshId ∧ n1.IdempotencyKey = some key := by
  have hfind : repo.notifications.find?
      (fun p => p.2.IdempotencyKey = some key) = none :=
    List.find?_eq_none.mpr (fun x hx => by simpa using h0 x hx)
  have hget : MockNotificationRepository.GetByIdempotencyKey repo key =
      Except.error DomainError.notFound := by
    unfold MockNotificationRepository.GetByIdempotencyKey
    rw [hfind]
  have hany : repo.notifications.any
      (fun p => p.2.IdempotencyKey = some key) = false := by
    rw [List.any_eq_false]
    intro x hx
    simpa using h0 x hx
  have hnkey : (NotificationService.buildNotification req key none freshId
      now).IdempotencyKey = some key := by
    simp [NotificationService.buildNotification, hkey]
  have hcreate_mock : MockNotificationRepository.Create repo
      (NotificationService.buildNotification req key none freshId now) =
      (none, { repo with
        notifications := repo.notifications ++
          [(freshId,
            NotificationService.buildNotification req key none freshId
              now)] }) := by
    unfold MockNotificationRepository.Create
    rw [hnkey]
    simp only [hany, Bool.false_eq_true, if_false]
    rw [show (NotificationService.buildNotification req key none freshId
        now).ID = freshId from rfl, mapInsert_fresh h1]
  have hCr : NotificationService.Create repo q req key freshId now =
      { notification := some (NotificationService.enqueueSvc
          { repo with
            notifications := repo.notifications ++
              [(freshId,
                NotificationService.buildNotification req key none freshId
                  now)] } q
          (NotificationService.buildNotification req key none freshId
            now)).2.2,
        duplicate := false, error := none,
        repo := (NotificationService.enqueueSvc
          { repo with
            notifications := repo.notifications ++
              [(freshId,
                NotificationService.buildNotification req key none freshId
                  now)] } q
          (NotificationService.buildNotification req key none freshId
            now)).1,
        queue := (NotificationService.enqueueSvc
          { repo with
            notifications := repo.notifications ++
              [(freshId,
                NotificationService.buildNotification req key none freshId
                  now)] } q
          (NotificationService.buildNotification req key none freshId
            now)).2.1 } := by
    simp [NotificationService.Create, hvalid, hget, hkey, hcreate_mock]
  obtain ⟨qq, hE⟩ | ⟨qq, hE⟩ := enqueueSvc_cases
    { repo with
      notifications := repo.notifications ++
        [(freshId,
          NotificationService.buildNotification req key none freshId now)] }
    q (NotificationService.buildNotification req key none freshId now)
  · exact ⟨NotificationService.buildNotification req key none freshId now,
      qq, by rw [hCr, hE], rfl, hnkey⟩
  · refine ⟨{ NotificationService.buildNotification req key none freshId now
        with Status := StatusQueued }, qq, ?_, rfl, hnkey⟩
    rw [hCr, hE]
    have hupd : mapUpdate (repo.notifications ++
        [(freshId,
          NotificationService.buildNotification req key none freshId now)])
        freshId (fun m => { m with Status := StatusQueued }) =
        repo.notifications ++
          [(freshId,
            { NotificationService.buildNotification req key none freshId now
              with Status := StatusQueued })] :=
      mapUpdate_append_single h1
    simp only [show (NotificationService.buildNotification req key none
        freshId now).ID = freshId from rfl, hupd]

/-- C5: with a non-empty idempotency key, a valid body, no stored row holding
the key, and an unused fresh id, `Create` persists exactly one notification
carrying the key and returns it as non-duplicate; every later `Create` with
the same key returns that same row (same id) flagged duplicate and leaves the
store and queue untouched — so any number of repeats converges to one row. -/
theorem create_idempotent (repo : MockRepo) (q : PriorityQueue)
    (req : CreateNotificationRequest) (key freshId : String) (now : Nat)
    (hkey : key ≠ "") (hvalid : req.Validate = none)
    (h0 : ∀ p ∈ repo.notifications, p.2.IdempotencyKey ≠ some key)
    (h1 : ∀ p ∈ repo.notifications, p.1 ≠ freshId) :
    (NotificationService.Create repo q req key freshId now).error = none ∧
    (NotificationService.Create repo q req key freshId now).duplicate =
      false ∧
    countKey (NotificationService.Create repo q req key freshId
      now).repo.notifications key = 1 ∧
    ∃ n1, (NotificationService.Create repo q req key freshId
        now).notification = some n1 ∧
      n1.ID = freshId ∧
      ∀ (q2 : PriorityQueue) (id2 : String) (now2 : Nat),
        NotificationService.Create
          (NotificationService.Create repo q req key freshId now).repo q2
          req key id2 now2 =
          { notification := some n1, duplicate := true, error := none,
            repo := (NotificationService.Create repo q req key freshId
              now).repo,
            queue := q2 } := by
  obtain ⟨n1, qq, hCr, hid, hk1⟩ :=
    create_fresh_shape repo q req key freshId now hkey hvalid h0 h1
  rw [hCr]
  refine ⟨rfl, rfl, ?_, n1, rfl, hid, ?_⟩
  · have hzero : countKey repo.notifications key = 0 :=
      countP_eq_zero (fun p hp => by simpa using h0 p hp)
    have hsplit : countKey (repo.notifications ++ [(freshId, n1)]) key =
        countKey repo.notifications key + countKey [(freshId, n1)] key :=
      countP_append _ _
    show countKey (repo.notifications ++ [(freshId, n1)]) key = 1
    rw [hsplit, hzero]
    simp [countKey, countP, hk1]
  · intro q2 id2 now2
    have hfind2 : (repo.notifications ++ [(freshId, n1)]).find?
        (fun p => p.2.IdempotencyKey = some key) = some (freshId, n1) := by
      rw [find?_append_of_none _
        (List.find?_eq_none.mpr (fun x hx => by simpa using h0 x hx))]
      simp [List.find?_cons, hk1]
    have hget2 : MockNotificationRepository.GetByIdempotencyKey
        { repo with
          notifications := repo.notifications ++ [(freshId, n1)] } key =
        Except.ok n1 := by
      unfold MockNotificationRepository.GetByIdempotencyKey
      rw [show ({ repo with
          notifications := repo.notifications ++ [(freshId, n1)] } :
        MockRepo).notifications = repo.notifications ++ [(freshId, n1)]
        from rfl, hfind2]
    exact create_duplicate_shape _ q2 req key id2 now2 hvalid hkey n1 hget2

/-- The empty queue used by witnesses. -/
def qEmpty : PriorityQueue := { high := [], normal := [], low := [] }

/-- Witness for C5 on the empty store with key "order-42". -/
theorem create_idempotent_witness :
    (NotificationService.Create NewMockNotificationRepository qEmpty reqHigh
      "order-42" "idA" 3).error = none ∧
    (NotificationService.Create NewMockNotificationRepository qEmpty reqHigh
      "order-42" "idA" 3).duplicate = false ∧
    countKey (NotificationService.Create NewMockNotificationRepository qEmpty
      reqHigh "order-42" "idA" 3).repo.notifications "order-42" = 1 ∧
    ∃ n1, (NotificationService.Create NewMockNotificationRepository qEmpty
        reqHigh "order-42" "idA" 3).notification = some n1 ∧
      n1.ID = "idA" ∧
      ∀ (q2 : PriorityQueue) (id2 : String) (now2 : Nat),
        NotificationService.Create
          (NotificationService.Create NewMockNotificationRepository qEmpty
            reqHigh "order-42" "idA" 3).repo q2 reqHigh "order-42" id2
          now2 =
          { notification := some n1, duplicate := true, error := none,
            repo := (NotificationService.Create NewMockNotificationRepository
              qEmpty reqHigh "order-42" "idA" 3).repo,
            queue := q2 } :=
  create_idempotent NewMockNotificationRepository qEmpty reqHigh "order-42"
    "idA" 3 (by decide) rfl
    (by intro p hp; simp [NewMockNotificationRepository] at hp)
    (by intro p hp; simp [NewMockNotificationRepository] at hp)

/-! ### C9 — batch atomicity -/

/-- Batch-map assignment followed by lookup of the same key. -/
theorem mapGetBatch_mapInsertBatch (k : String) (v : Batch) :
    ∀ m, mapGetBatch (mapInsertBatch m k v) k = some v := by
  intro m
  induction m with
  | nil => simp [mapInsertBatch, mapGetBatch]
  | cons a t ih =>
    by_cases ha : a.1 = k
    · have hany : (a :: t).any (fun p => p.1 = k) = true := by
        simp [List.any_cons, ha]
      rw [mapInsertBatch, if_pos hany]
      simp [mapGetBatch, List.find?_cons, ha]
    · have hstep : mapInsertBatch (a :: t) k v = a :: mapInsertBatch t k v := by
        unfold mapInsertBatch
        by_cases hany : t.any (fun p => p.1 = k)
        · rw [if_pos (by simp [List.any_cons, hany]), if_pos hany]
          simp [if_neg ha]
        · rw [if_neg (by simp [List.any_cons, ha, hany]), if_neg hany]
          simp
      have hhead : mapGetBatch (a :: mapInsertBatch t k v) k =
          mapGetBatch (mapInsertBatch t k v) k := by
        simp [mapGetBatch, List.find?_cons, ha]
      rw [hstep, hhead, ih]

/-- The child-insertion loop of the mock `CreateBatch` is a plain append when
all child ids are fresh and mutually distinct. -/
theorem foldl_mapInsert_fresh :
    ∀ (ns : List Notification) (m : List (String × Notification)),
      (∀ p ∈ m, ∀ n ∈ ns, p.1 ≠ n.ID) →
      ns.Pairwise (fun a b => a.ID ≠ b.ID) →
      ns.foldl (fun acc n => mapInsert acc n.ID n) m =
        m ++ ns.map (fun n => (n.ID, n)) := by
  intro ns
  induction ns with
  | nil => intro m _ _; simp
  | cons n t ih =>
    intro m hfresh hpair
    have h1 : ∀ p ∈ m, p.1 ≠ n.ID := fun p hp => hfresh p hp n (by simp)
    rw [List.foldl_cons, mapInsert_fresh h1]
    have hfresh2 : ∀ p ∈ m ++ [(n.ID, n)], ∀ x ∈ t, p.1 ≠ x.ID := by
      intro p hp x hx
      rcases List.mem_append.mp hp with hp | hp
      · exact hfresh p hp x (by simp [hx])
      · have hpn : p = (n.ID, n) := by simpa using hp
        subst hpn
        exact (List.pairwise_cons.mp hpair).1 x hx
    have hpair2 := (List.pairwise_cons.mp hpair).2
    rw [ih (m ++ [(n.ID, n)]) hfresh2 hpair2]
    simp


/-- C9: `create_batch` is all-or-nothing.  An empty batch yields `BatchEmpty`,
more than 1000 items yields `BatchTooLarge`, and a first invalid item aborts
with its validation error — in all three cases nothing is persisted and the
queue is untouched.  With valid input (and fresh, distinct ids), the batch
row and all children are inserted and the returned `batch.Total` equals the
number of children inserted. -/
theorem create_batch_atomic (repo : MockRepo) (q : PriorityQueue)
    (requests : List CreateNotificationRequest) (batchId : String)
    (ids : List String) (now : Nat) :
    (requests = [] →
      NotificationService.CreateBatch repo q requests batchId ids now =
        (none, some DomainError.batchEmpty, repo, q)) ∧
    (requests.length > 1000 →
      NotificationService.CreateBatch repo q requests batchId ids now =
        (none, some DomainError.batchTooLarge, repo, q)) ∧
    (∀ e, requests ≠ [] → requests.length ≤ 1000 →
      NotificationService.validateAll requests = some e →
      NotificationService.CreateBatch repo q requests batchId ids now =
        (none, some e, repo, q)) ∧
    (requests ≠ [] → requests.length ≤ 1000 →
      NotificationService.validateAll requests = none →
      ids.Nodup → ids.length = requests.length →
      (∀ p ∈ repo.notifications, ∀ i ∈ ids, p.1 ≠ i) →
      (∀ p ∈ repo.notifications, p.2.BatchID ≠ some batchId) →
      ∃ b, (NotificationService.CreateBatch repo q requests batchId ids
          now).1 = some b ∧
        (NotificationService.CreateBatch repo q requests batchId ids
          now).2.1 = none ∧
        b.Total = requests.length ∧
        mapGetBatch (NotificationService.CreateBatch repo q requests batchId
          ids now).2.2.1.batches batchId = some b ∧
        countBatch (NotificationService.CreateBatch repo q requests batchId
          ids now).2.2.1.notifications batchId = requests.length) := by
  refine ⟨fun h => ?_, fun h => ?_, fun e h1 h2 h3 => ?_,
    fun h1 h2 h3 hnodup hlen hfresh hbid => ?_⟩
  · subst h
    simp [NotificationService.CreateBatch]
  · have h0 : ¬ (requests.length = 0) := by omega
    simp [NotificationService.CreateBatch, h0, h]
  · have h0 : ¬ (requests.length = 0) := by
      simpa [List.length_eq_zero] using h1
    have hle : ¬ (requests.length > 1000) := by omega
    simp [NotificationService.CreateBatch, h0, hle, h3]
  · have h0 : ¬ (requests.length = 0) := by
      simpa [List.length_eq_zero] using h1
    have hle : ¬ (requests.length > 1000) := by omega
    set ns := (requests.zip ids).map
      (fun pr =>
        NotificationService.buildNotification pr.1 "" (some batchId) pr.2
          now) with hns
    have hzl : (requests.zip ids).length = requests.length := by
      rw [List.length_zip, hlen]
      simp
    have hlen_ns : ns.length = requests.length := by
      rw [hns, List.length_map, hzl]
    have hids_le : ids.length ≤ requests.length := by omega
    have hsnd : (requests.zip ids).map Prod.snd = ids :=
      List.map_snd_zip requests ids hids_le
    have hpair_zip : (requests.zip ids).Pairwise (fun a b => a.2 ≠ b.2) := by
      have hnd : ((requests.zip ids).map Prod.snd).Nodup := by
        rw [hsnd]; exact hnodup
      exact List.pairwise_map.mp hnd
    have hpair_ns : ns.Pairwise (fun a b => a.ID ≠ b.ID) := by
      rw [hns]
      exact List.pairwise_map.mpr hpair_zip
    have hfresh_ns : ∀ p ∈ repo.notifications, ∀ n ∈ ns, p.1 ≠ n.ID := by
      intro p hp n hn
      rw [hns] at hn
      obtain ⟨⟨r, i⟩, hpr, rfl⟩ := List.mem_map.mp hn
      exact hfresh p hp i (List.of_mem_zip hpr).2
    have hstore : ns.foldl (fun acc n => mapInsert acc n.ID n)
        repo.notifications =
        repo.notifications ++ ns.map (fun n => (n.ID, n)) :=
      foldl_mapInsert_fresh ns repo.notifications hfresh_ns hpair_ns
    set repo1 : MockRepo :=
      { repo with
        batches := mapInsertBatch repo.batches batchId
          (MockNotificationRepository.batchRow batchId ns.length now)
        notifications :=
          repo.notifications ++ ns.map (fun n => (n.ID, n)) } with hrepo1
    have hCB : NotificationService.CreateBatch repo q requests batchId ids
        now =
        (some (MockNotificationRepository.batchRow batchId ns.length now),
          none,
          (NotificationService.enqueueAll repo1 q ns).1,
          (NotificationService.enqueueAll repo1 q ns).2) := by
      simp only [NotificationService.CreateBatch,
        MockNotificationRepository.CreateBatch, if_neg h0, if_neg hle, h3]
      rw [← hns, hstore]
    have hpres := enqueueAll_preserves (fun n => n.BatchID = some batchId)
      (fun m => rfl) ns repo1 q
    refine ⟨MockNotificationRepository.batchRow batchId ns.length now,
      ?_, ?_, hlen_ns, ?_, ?_⟩
    · rw [hCB]
    · rw [hCB]
    · rw [hCB]
      show mapGetBatch (NotificationService.enqueueAll repo1 q
        ns).1.batches batchId = _
      rw [hpres.2, hrepo1]
      exact mapGetBatch_mapInsertBatch batchId _ repo.batches
    · rw [hCB]
      show countBatch (NotificationService.enqueueAll repo1 q
        ns).1.notifications batchId = requests.length
      have hcb : countBatch (NotificationService.enqueueAll repo1 q
          ns).1.notifications batchId =
          countBatch repo1.notifications batchId := hpres.1
      rw [hcb, hrepo1]
      have hzero : countP repo.notifications
          (fun n => n.BatchID = some batchId) = 0 :=
        countP_eq_zero (fun p hp => by simpa using hbid p hp)
      have hsplit : countP (repo.notifications ++
          ns.map (fun n => (n.ID, n)))
          (fun n => n.BatchID = some batchId) =
          countP repo.notifications (fun n => n.BatchID = some batchId) +
            countP (ns.map (fun n => (n.ID, n)))
              (fun n => n.BatchID = some batchId) :=
        countP_append repo.notifications (ns.map (fun n => (n.ID, n)))
      have hmapped : countP (ns.map (fun n => (n.ID, n)))
          (fun n => n.BatchID = some batchId) = ns.length := by
        unfold countP
        rw [List.filter_eq_self.mpr ?hall]
        case hall =>
          intro p hp
          obtain ⟨n, hn, rfl⟩ := List.mem_map.mp hp
          rw [hns] at hn
          obtain ⟨⟨r, i⟩, hpr, rfl⟩ := List.mem_map.mp hn
          simp [NotificationService.buildNotification]
        rw [List.length_map]
      show countP _ (fun n => n.BatchID = some batchId) = requests.length
      rw [hsplit, hzero, hmapped, hlen_ns]
      simp

/-- Witness for C9: a singleton batch on the empty store inserts the batch
row plus its one child, and the returned total is 1. -/
theorem create_batch_atomic_witness :
    ∃ b, (NotificationService.CreateBatch NewMockNotificationRepository
        qEmpty [reqHigh] "B7" ["b1"] 5).1 = some b ∧
      (NotificationService.CreateBatch NewMockNotificationRepository qEmpty
        [reqHigh] "B7" ["b1"] 5).2.1 = none ∧
      b.Total = 1 ∧
      mapGetBatch (NotificationService.CreateBatch
        NewMockNotificationRepository qEmpty [reqHigh] "B7" ["b1"]
        5).2.2.1.batches "B7" = some b ∧
      countBatch (NotificationService.CreateBatch
        NewMockNotificationRepository qEmpty [reqHigh] "B7" ["b1"]
        5).2.2.1.notifications "B7" = 1 :=
  (create_batch_atomic NewMockNotificationRepository qEmpty [reqHigh] "B7"
      ["b1"] 5).2.2.2
    (by decide) (by decide) rfl (by decide) rfl
    (by intro p hp; simp [NewMockNotificationRepository] at hp)
    (by intro p hp; simp [NewMockNotificationRepository] at hp)
